import Mathlib

/-!
Shallow embedding of `src/update_spy_signals.py` (SPY signals auto-updater).

Prices are modelled as exact rationals (`ℚ`); a pandas `Series` of closes
becomes a `List ℚ`, and a series entry that pandas would hold as `NaN`
(undefined) becomes `none` in an `Option ℚ`-valued position.
Floating-point representation effects are below this abstraction.
-/

namespace SpySignals

/-- Opaqueness of pandas NaN is modelled by `Option`;
`roundHalfEven q` is the integer nearest to `q`, ties going to the even
integer: this is the rounding rule of the Python builtin `round`
(round half to even), applied here to exact rationals. -/
def roundHalfEven (q : ℚ) : ℤ :=
  if q - (⌊q⌋ : ℚ) = 1/2 then
    (if ⌊q⌋ % 2 = 0 then ⌊q⌋ else ⌊q⌋ + 1)
  else round q

/-- `round(x, 2)` of the Python source: round to 2 decimal places. -/
def round2 (q : ℚ) : ℚ := (roundHalfEven (100 * q) : ℚ) / 100

/-- `series.diff()` of pandas: `diff[i] = s[i] - s[i-1]`; the first entry
(pandas index 0, a NaN) is dropped, so position `j` of `diffs s` is the
difference at series index `j + 1`. -/
def diffs (s : List ℚ) : List ℚ := List.zipWith (fun b a => b - a) s.tail s

/-- `delta.clip(lower=0)` applied to the difference series. -/
def gains (s : List ℚ) : List ℚ := (diffs s).map (fun d => max d 0)

/-- `-delta.clip(upper=0)` applied to the difference series. -/
def losses (s : List ℚ) : List ℚ := (diffs s).map (fun d => max (-d) 0)

/-- The tail of the recursion of `ewm(alpha, adjust=False).mean()`:
given the previous smoothed value `y`, each new observation `x`
contributes `(1 - α) * y + α * x`. -/
def ewmaGo (α : ℚ) : ℚ → List ℚ → List ℚ
  | _, [] => []
  | y, x :: xs => ((1 - α) * y + α * x) :: ewmaGo α ((1 - α) * y + α * x) xs

/-- `ewm(alpha, adjust=False).mean()` over the non-NaN observations:
the first smoothed value is the first observation itself, and every
later value follows the recursion of `ewmaGo`. -/
def ewma (α : ℚ) : List ℚ → List ℚ
  | [] => []
  | x :: xs => x :: ewmaGo α x xs

/-- `gain.ewm(alpha=1/period, min_periods=period, adjust=False).mean()`
read at series index `i`: pandas masks the output to NaN (`none`) until
`period` non-NaN observations (series indices `1..i`, so `i ≥ period` of
them) have contributed; past the mask the value is the running
exponential average of the gains. -/
def avgGainAt (s : List ℚ) (period : ℕ) (i : ℕ) : Option ℚ :=
  if period ≤ i then (ewma (1 / (period : ℚ)) (gains s))[i - 1]? else none

/-- The loss-side average, same masking as `avgGainAt`. -/
def avgLossAt (s : List ℚ) (period : ℕ) (i : ℕ) : Option ℚ :=
  if period ≤ i then (ewma (1 / (period : ℚ)) (losses s))[i - 1]? else none

/-- One RSI value from a defined pair of averages.  The source computes
`rs = avg_gain / avg_loss.replace(0, float("inf"))`: when the loss
average is zero it is replaced by floating infinity and the quotient of
the finite gain average by infinity is `0.0`, so `rs = 0` there; the
rational embedding writes that quotient out explicitly. -/
def rsiVal (g l : ℚ) : ℚ :=
  (100 : ℚ) - 100 / (1 + (if l = 0 then 0 else g / l))

/-- `calc_rsi` of the source: the RSI series, positionwise over the
input series, `none` where pandas would hold NaN. -/
def calc_rsi (s : List ℚ) (period : ℕ) : List (Option ℚ) :=
  (List.range s.length).map (fun i =>
    match avgGainAt s period i, avgLossAt s period i with
    | some g, some l => some (rsiVal g l)
    | _, _ => none)

/-- `close.rolling(200).mean()` read at index `i`: NaN (`none`) until a
full 200-element window ends at `i`, the window mean afterwards. -/
def smaAt (s : List ℚ) (i : ℕ) : Option ℚ :=
  if 199 ≤ i ∧ i < s.length then
    some (((s.drop (i - 199)).take 200).sum / 200)
  else none

/-- One news item content, `{"title": ...}` possibly absent. -/
structure NewsContent where
  title : Option String
deriving Repr, DecidableEq

/-- One news item, `{"content": ...}` possibly absent. -/
structure NewsItem where
  content : Option NewsContent
deriving Repr, DecidableEq

/-- Outcome of the `yf.Ticker("SPY").news` call: either a list of items
(possibly empty) or a raised exception. -/
inductive NewsFetch where
  | ok (items : List NewsItem)
  | err
deriving Repr, DecidableEq

/-- `fetch_spy_news` of the source: first item title when everything is
present, otherwise the empty string; an exception is swallowed and also
yields the empty string. -/
def fetch_spy_news : NewsFetch → String
  | .err => ""
  | .ok [] => ""
  | .ok (item :: _) =>
    match item.content with
    | some c => c.title.getD ""
    | none => ""

/-- The `metrics` sub-record of the snapshot payload. -/
structure Metrics where
  last_close : ℚ
  rsi2 : ℚ
  sma200 : ℚ
  news : String
deriving Repr, DecidableEq

/-- The snapshot payload written to `spy_signals.json`. -/
structure Snapshot where
  ticker : String
  rsi_2_below_30 : ℕ
  three_lower_closes : ℕ
  above_sma200 : ℕ
  metrics : Metrics
  updated_at : String
deriving Repr, DecidableEq

/-- The body of `run` after the length guard: indicators, rounding,
thresholds, payload. `now` stands for the formatted
`datetime.now(timezone.utc)` string.  The `getD` defaults are never
reached when the guard held (see the totality theorem for the claim on
definedness): with at least 210 closes every accessed entry is `some`. -/
def buildSnapshot (close : List ℚ) (news : NewsFetch) (now : String) : Snapshot :=
  let n := close.length
  let rsi2series := calc_rsi close 2
  let last_close := round2 (close.getD (n - 1) 0)
  let last_rsi2 := round2 ((rsi2series.getD (n - 1) none).getD 0)
  let last_sma200 := round2 ((smaAt close (n - 1)).getD 0)
  let rsi2_below_30 : ℕ := if last_rsi2 < 30 then 1 else 0
  let three_lower : ℕ :=
    if close.getD (n - 1) 0 < close.getD (n - 2) 0 ∧
       close.getD (n - 2) 0 < close.getD (n - 3) 0 then 1 else 0
  let above_sma200 : ℕ := if last_close > last_sma200 then 1 else 0
  { ticker := "SPY"
    rsi_2_below_30 := rsi2_below_30
    three_lower_closes := three_lower
    above_sma200 := above_sma200
    metrics :=
      { last_close := last_close
        rsi2 := last_rsi2
        sma200 := last_sma200
        news := fetch_spy_news news }
    updated_at := now }

/-- `run` of the source up to the file write: the guard
`df.empty or len(df) < 210` (the first disjunct is subsumed by the
second) raises `ValueError`, modelled as `Except.error` with the
formatted message; otherwise the snapshot payload is produced. -/
def run (close : List ℚ) (news : NewsFetch) (now : String) :
    Except String Snapshot :=
  if close.length < 210 then
    .error ("Not enough data: " ++ toString close.length ++ " rows (need 210+)")
  else
    .ok (buildSnapshot close news now)

/-- `run` together with its effect on the stored snapshot file: a raised
`ValueError` propagates, so the statements after it — including the
`open`/`json.dump` at the end of `run` — never execute and the stored
file is whatever it was before. -/
def runAndWrite (close : List ℚ) (news : NewsFetch) (now : String)
    (store : Option Snapshot) : Option Snapshot × Except String Snapshot :=
  match run close news now with
  | .error e => (store, .error e)
  | .ok s => (some s, .ok s)

/-! ### Fine-grained model of the file write

`with open(out, "w") as f: json.dump(payload, f, indent=4)` — opening
with mode `"w"` creates or truncates the file at once, then the
serializer emits the text incrementally.  A file is `none` (absent) or
`some` a list of emitted chunks. -/

/-- Primitive file operations of the write: truncating open, then one
emit per serialized chunk. -/
inductive WriteOp where
  | openTrunc
  | emit (chunk : String)
deriving Repr, DecidableEq

/-- Effect of one primitive operation on the file. -/
def applyOp : Option (List String) → WriteOp → Option (List String)
  | _, .openTrunc => some []
  | f, .emit c => some ((f.getD []) ++ [c])

/-- The operation sequence of the snapshot write for a given serialized
payload. -/
def writeProgram (payload : List String) : List WriteOp :=
  .openTrunc :: payload.map .emit

/-- File contents after the first `k` operations of the write have
executed against previous contents `old` — the state a failure after
step `k` leaves behind. -/
def fileAfter (old : Option (List String)) (payload : List String) (k : ℕ) :
    Option (List String) :=
  ((writeProgram payload).take k).foldl applyOp old

/-! ### The smoothing recursion as the spec words it

`ewmSpec` is written from the specification text, to be compared with the
embedded `ewma`: "a pure recursive exponential smoothing starting from
the first available difference", first value the first observation,
thereafter `avg[i] = (1 - alpha) * avg[i-1] + alpha * x[i]`. -/

/-- The exponentially weighted average exactly as the spec describes it:
no simple-average seeding, the value at position 0 is the observation
itself. -/
def ewmSpec (α : ℚ) (x : ℕ → ℚ) : ℕ → ℚ
  | 0 => x 0
  | j + 1 => (1 - α) * ewmSpec α x j + α * x (j + 1)

/-- Closed form of the tail recursion, used to relate `ewmaGo` to
`ewmSpec`. -/
def ewmaGoSpec (α y : ℚ) (x : ℕ → ℚ) : ℕ → ℚ
  | 0 => (1 - α) * y + α * x 0
  | j + 1 => (1 - α) * ewmaGoSpec α y x j + α * x (j + 1)

lemma ewmaGo_length (α y : ℚ) (xs : List ℚ) : (ewmaGo α y xs).length = xs.length := by
  induction xs generalizing y with
  | nil => rfl
  | cons x xs ih => simp [ewmaGo, ih]

lemma ewma_length (α : ℚ) (xs : List ℚ) : (ewma α xs).length = xs.length := by
  cases xs with
  | nil => rfl
  | cons x xs => simp [ewma, ewmaGo_length]

lemma diffs_length (s : List ℚ) : (diffs s).length = s.length - 1 := by
  cases s with
  | nil => rfl
  | cons x xs => simp [diffs]

lemma gains_length (s : List ℚ) : (gains s).length = s.length - 1 := by
  simp [gains, diffs_length]

lemma losses_length (s : List ℚ) : (losses s).length = s.length - 1 := by
  simp [losses, diffs_length]

lemma ewmaGoSpec_shift (α y : ℚ) (x : ℕ → ℚ) (j : ℕ) :
    ewmaGoSpec α y x (j + 1) =
      ewmaGoSpec α ((1 - α) * y + α * x 0) (fun k => x (k + 1)) j := by
  induction j with
  | zero => rfl
  | succ j ih => rw [ewmaGoSpec, ih]; rfl

lemma ewmaGo_getElem (α : ℚ) :
    ∀ (xs : List ℚ) (y : ℚ) (j : ℕ), j < xs.length →
      (ewmaGo α y xs)[j]? = some (ewmaGoSpec α y (fun k => xs.getD k 0) j) := by
  intro xs
  induction xs with
  | nil => intro y j h; simp at h
  | cons x xs ih =>
    intro y j h
    cases j with
    | zero => simp [ewmaGo, ewmaGoSpec]
    | succ j =>
      have hj : j < xs.length := by simpa using h
      rw [ewmaGo, List.getElem?_cons_succ]
      rw [ih ((1 - α) * y + α * x) j hj, ewmaGoSpec_shift]
      simp only [List.getD_cons_zero, List.getD_cons_succ]

lemma ewmSpec_eq_goSpec (α : ℚ) (x : ℕ → ℚ) (j : ℕ) :
    ewmSpec α x (j + 1) = ewmaGoSpec α (x 0) (fun k => x (k + 1)) j := by
  induction j with
  | zero => rfl
  | succ j ih => rw [ewmSpec, ih]; rfl

lemma ewma_getElem (α : ℚ) (xs : List ℚ) (j : ℕ) (h : j < xs.length) :
    (ewma α xs)[j]? = some (ewmSpec α (fun k => xs.getD k 0) j) := by
  cases xs with
  | nil => simp at h
  | cons x xs =>
    cases j with
    | zero => simp [ewma, ewmSpec]
    | succ j =>
      have hj : j < xs.length := by simpa using h
      rw [ewma, List.getElem?_cons_succ]
      rw [ewmaGo_getElem α xs x j hj, ewmSpec_eq_goSpec]
      simp only [List.getD_cons_zero, List.getD_cons_succ]

lemma avgGainAt_eq (s : List ℚ) (P i : ℕ) (hP : 1 ≤ P) (h1 : P ≤ i)
    (h2 : i < s.length) :
    avgGainAt s P i =
      some (ewmSpec (1 / (P : ℚ)) (fun k => (gains s).getD k 0) (i - 1)) := by
  rw [avgGainAt, if_pos h1]
  exact ewma_getElem _ _ _ (by rw [gains_length]; omega)

lemma avgLossAt_eq (s : List ℚ) (P i : ℕ) (hP : 1 ≤ P) (h1 : P ≤ i)
    (h2 : i < s.length) :
    avgLossAt s P i =
      some (ewmSpec (1 / (P : ℚ)) (fun k => (losses s).getD k 0) (i - 1)) := by
  rw [avgLossAt, if_pos h1]
  exact ewma_getElem _ _ _ (by rw [losses_length]; omega)

lemma avgGainAt_none_low (s : List ℚ) (P i : ℕ) (h : i < P) :
    avgGainAt s P i = none := by
  rw [avgGainAt, if_neg (by omega)]

lemma avgLossAt_none_low (s : List ℚ) (P i : ℕ) (h : i < P) :
    avgLossAt s P i = none := by
  rw [avgLossAt, if_neg (by omega)]

lemma avgGainAt_none_high (s : List ℚ) (P i : ℕ) (h : s.length ≤ i) :
    avgGainAt s P i = none := by
  rw [avgGainAt]
  split
  · exact List.getElem?_eq_none (by rw [ewma_length, gains_length]; omega)
  · rfl

lemma avgLossAt_none_high (s : List ℚ) (P i : ℕ) (h : s.length ≤ i) :
    avgLossAt s P i = none := by
  rw [avgLossAt]
  split
  · exact List.getElem?_eq_none (by rw [ewma_length, losses_length]; omega)
  · rfl

lemma calc_rsi_length (s : List ℚ) (P : ℕ) : (calc_rsi s P).length = s.length := by
  simp [calc_rsi]

lemma calc_rsi_getElem (s : List ℚ) (P i : ℕ) (h : i < s.length) :
    (calc_rsi s P)[i]? =
      some (match avgGainAt s P i, avgLossAt s P i with
            | some g, some l => some (rsiVal g l)
            | _, _ => none) := by
  rw [calc_rsi, List.getElem?_map, List.getElem?_range h, Option.map_some']

lemma calc_rsi_last (s : List ℚ) (P : ℕ) (hP : 1 ≤ P) (h : P + 1 ≤ s.length) :
    (calc_rsi s P)[s.length - 1]? =
      some (some (rsiVal
        (ewmSpec (1 / (P : ℚ)) (fun k => (gains s).getD k 0) (s.length - 1 - 1))
        (ewmSpec (1 / (P : ℚ)) (fun k => (losses s).getD k 0) (s.length - 1 - 1)))) := by
  rw [calc_rsi_getElem s P (s.length - 1) (by omega),
    avgGainAt_eq s P (s.length - 1) hP (by omega) (by omega),
    avgLossAt_eq s P (s.length - 1) hP (by omega) (by omega)]

lemma smaAt_last (s : List ℚ) (h : 210 ≤ s.length) :
    smaAt s (s.length - 1) = some ((s.drop (s.length - 200)).sum / 200) := by
  rw [smaAt, if_pos (by omega)]
  have hidx : s.length - 1 - 199 = s.length - 200 := by omega
  rw [hidx, List.take_of_length_le (by rw [List.length_drop]; omega)]

lemma run_ok (close : List ℚ) (news : NewsFetch) (now : String)
    (h : 210 ≤ close.length) :
    run close news now = .ok (buildSnapshot close news now) := by
  rw [run, if_neg (by omega)]

lemma buildSnapshot_three_lower (close : List ℚ) (news : NewsFetch) (now : String) :
    (buildSnapshot close news now).three_lower_closes =
      if close.getD (close.length - 1) 0 < close.getD (close.length - 2) 0 ∧
         close.getD (close.length - 2) 0 < close.getD (close.length - 3) 0
      then 1 else 0 := rfl

lemma buildSnapshot_above (close : List ℚ) (news : NewsFetch) (now : String) :
    (buildSnapshot close news now).above_sma200 =
      if round2 (close.getD (close.length - 1) 0) >
         round2 ((smaAt close (close.length - 1)).getD 0)
      then 1 else 0 := rfl

lemma buildSnapshot_below30 (close : List ℚ) (news : NewsFetch) (now : String) :
    (buildSnapshot close news now).rsi_2_below_30 =
      if round2 (((calc_rsi close 2).getD (close.length - 1) none).getD 0) < 30
      then 1 else 0 := rfl

/-- Claim C1 — the claim is right and the code is wrong.  On the strictly
increasing series `[1, 2, 3, 4]` (period 2, smoothed loss average zero at
every defined index) the embedded `calc_rsi` yields `0` at the last
index, where the claim — and the standard RSI definition the rest of the
spec relies on — requires `100`: the source line
`rs = avg_gain / avg_loss.replace(0, float("inf"))` turns a zero loss
average into an infinite denominator, so `rs` becomes `0` instead of
infinity and `100 - 100/(1 + rs)` collapses to `0`. -/
theorem claim_C1_rsi_zero_on_increasing :
    List.Chain' (· < ·) [(1 : ℚ), 2, 3, 4] ∧
    (calc_rsi [(1 : ℚ), 2, 3, 4] 2).getD 3 none = some 0 ∧
    ((0 : ℚ) ≠ 100) := by
  refine ⟨by norm_num [List.chain'_cons], ?_, by norm_num⟩
  norm_num [calc_rsi, List.range_succ, avgGainAt, avgLossAt, gains, losses,
    diffs, ewma, ewmaGo, rsiVal]

/-- Claim C2 — for every fetched price series with fewer than 210
observations, `run` fails with the formatted insufficient-data error and
the stored snapshot file is left exactly as it was, whatever it was. -/
theorem claim_C2_short_series_error (close : List ℚ) (news : NewsFetch)
    (now : String) (h : close.length < 210) :
    run close news now =
      .error ("Not enough data: " ++ toString close.length ++ " rows (need 210+)") ∧
    ∀ store : Option Snapshot,
      runAndWrite close news now store =
        (store, .error ("Not enough data: " ++ toString close.length ++ " rows (need 210+)")) := by
  have hrun : run close news now =
      .error ("Not enough data: " ++ toString close.length ++ " rows (need 210+)") := by
    rw [run, if_pos h]
  exact ⟨hrun, fun store => by rw [runAndWrite, hrun]⟩

theorem claim_C2_witness :
    run ([] : List ℚ) .err "2025-01-01T00:00:00Z" =
      .error ("Not enough data: " ++ toString (List.length ([] : List ℚ)) ++ " rows (need 210+)") ∧
    ∀ store : Option Snapshot,
      runAndWrite ([] : List ℚ) .err "2025-01-01T00:00:00Z" store =
        (store, .error ("Not enough data: " ++ toString (List.length ([] : List ℚ)) ++ " rows (need 210+)")) :=
  claim_C2_short_series_error [] .err "2025-01-01T00:00:00Z" (by decide)

/-- Claim C3 — with the last three closes `c, b, a` (most recent last),
the `three_lower_closes` field of the produced snapshot is `1` exactly
when `a < b` and `b < c`, i.e. when the three most recent closes are
strictly decreasing; any equality or increase gives `0`. -/
theorem claim_C3_three_lower_iff (rest : List ℚ) (a b c : ℚ) (news : NewsFetch)
    (now : String) (h : 207 ≤ rest.length) :
    ∃ s, run (rest ++ [c, b, a]) news now = .ok s ∧
      (s.three_lower_closes = 1 ↔ (a < b ∧ b < c)) := by
  have hlen : (rest ++ [c, b, a]).length = rest.length + 3 := by simp
  refine ⟨buildSnapshot (rest ++ [c, b, a]) news now,
    run_ok _ _ _ (by omega), ?_⟩
  have e1 : (rest ++ [c, b, a]).getD ((rest ++ [c, b, a]).length - 1) 0 = a := by
    rw [List.getD_eq_getElem?_getD, hlen,
      show rest.length + 3 - 1 = rest.length + 2 by omega,
      List.getElem?_append_right (by omega)]
    simp
  have e2 : (rest ++ [c, b, a]).getD ((rest ++ [c, b, a]).length - 2) 0 = b := by
    rw [List.getD_eq_getElem?_getD, hlen,
      show rest.length + 3 - 2 = rest.length + 1 by omega,
      List.getElem?_append_right (by omega)]
    simp
  have e3 : (rest ++ [c, b, a]).getD ((rest ++ [c, b, a]).length - 3) 0 = c := by
    rw [List.getD_eq_getElem?_getD, hlen,
      show rest.length + 3 - 3 = rest.length + 0 by omega,
      List.getElem?_append_right (by omega)]
    simp
  rw [buildSnapshot_three_lower, e1, e2, e3]
  by_cases hab : a < b ∧ b < c
  · simp [hab]
  · simp [if_neg hab, hab]

theorem claim_C3_witness :
    ∃ s, run (List.replicate 207 (100 : ℚ) ++ [102, 101, 100]) .err
        "2025-01-01T00:00:00Z" = .ok s ∧
      (s.three_lower_closes = 1 ↔ ((100 : ℚ) < 101 ∧ (101 : ℚ) < 102)) :=
  claim_C3_three_lower_iff (List.replicate 207 (100 : ℚ)) 100 101 102 .err
    "2025-01-01T00:00:00Z" (by simp only [List.length_replicate]; omega)

lemma getLast?_eq_getD (close : List ℚ) (h : 1 ≤ close.length) :
    close.getLast? = some (close.getD (close.length - 1) 0) := by
  rw [List.getLast?_eq_getElem?, List.getD_eq_getElem?_getD]
  cases hx : close[close.length - 1]? with
  | none =>
    rw [List.getElem?_eq_none_iff] at hx
    omega
  | some v => simp

/-- Claim C4 — on a valid series the `above_sma200` field is `1` exactly
when the last close strictly exceeds the mean of the trailing 200
closes, both compared after rounding to 2 decimal places; equality of
the rounded values gives `0`. -/
theorem claim_C4_above_sma_iff (close : List ℚ) (news : NewsFetch) (now : String)
    (h : 210 ≤ close.length) :
    ∃ s c, run close news now = .ok s ∧
      close.getLast? = some c ∧
      smaAt close (close.length - 1) =
        some ((close.drop (close.length - 200)).sum / 200) ∧
      (s.above_sma200 = 1 ↔
        round2 ((close.drop (close.length - 200)).sum / 200) < round2 c) := by
  refine ⟨buildSnapshot close news now, close.getD (close.length - 1) 0,
    run_ok _ _ _ h, getLast?_eq_getD close (by omega), smaAt_last close h, ?_⟩
  rw [buildSnapshot_above, smaAt_last close h, Option.getD_some]
  by_cases hcmp :
      round2 ((close.drop (close.length - 200)).sum / 200) <
        round2 (close.getD (close.length - 1) 0)
  · simp [hcmp]
  · simp [hcmp]

theorem claim_C4_witness :
    ∃ s c, run (List.replicate 210 (100 : ℚ)) .err "2025-01-01T00:00:00Z" = .ok s ∧
      (List.replicate 210 (100 : ℚ)).getLast? = some c ∧
      smaAt (List.replicate 210 (100 : ℚ)) ((List.replicate 210 (100 : ℚ)).length - 1) =
        some (((List.replicate 210 (100 : ℚ)).drop
          ((List.replicate 210 (100 : ℚ)).length - 200)).sum / 200) ∧
      (s.above_sma200 = 1 ↔
        round2 (((List.replicate 210 (100 : ℚ)).drop
          ((List.replicate 210 (100 : ℚ)).length - 200)).sum / 200) < round2 c) :=
  claim_C4_above_sma_iff (List.replicate 210 (100 : ℚ)) .err "2025-01-01T00:00:00Z"
    (by simp only [List.length_replicate]; omega)

/-- Claim C5 — on a valid series the `rsi_2_below_30` field is `1`
exactly when the last period-2 RSI value, rounded to 2 decimal places,
is strictly below 30. -/
theorem claim_C5_rsi_threshold (close : List ℚ) (news : NewsFetch) (now : String)
    (h : 210 ≤ close.length) :
    ∃ s r, run close news now = .ok s ∧
      (calc_rsi close 2).getLast? = some (some r) ∧
      (s.rsi_2_below_30 = 1 ↔ round2 r < 30) := by
  have hl := calc_rsi_last close 2 (by norm_num) (by omega)
  norm_num at hl
  refine ⟨buildSnapshot close news now,
    rsiVal (ewmSpec (1 / (2 : ℚ)) (fun k => (gains close).getD k 0) (close.length - 1 - 1))
      (ewmSpec (1 / (2 : ℚ)) (fun k => (losses close).getD k 0) (close.length - 1 - 1)),
    run_ok _ _ _ h, ?_, ?_⟩
  · rw [List.getLast?_eq_getElem?, calc_rsi_length, hl]
    simp [List.getD_eq_getElem?_getD]
  · rw [buildSnapshot_below30, List.getD_eq_getElem?_getD, hl, Option.getD_some,
      Option.getD_some]
    by_cases hcmp :
        round2 (rsiVal
          (ewmSpec (1 / (2 : ℚ)) (fun k => (gains close).getD k 0) (close.length - 1 - 1))
          (ewmSpec (1 / (2 : ℚ)) (fun k => (losses close).getD k 0) (close.length - 1 - 1))) < 30
    · simp [hcmp]
    · simp [hcmp]

theorem claim_C5_witness :
    ∃ s r, run (List.replicate 211 (50 : ℚ)) .err "2025-01-01T00:00:00Z" = .ok s ∧
      (calc_rsi (List.replicate 211 (50 : ℚ)) 2).getLast? = some (some r) ∧
      (s.rsi_2_below_30 = 1 ↔ round2 r < 30) :=
  claim_C5_rsi_threshold (List.replicate 211 (50 : ℚ)) .err "2025-01-01T00:00:00Z"
    (by simp only [List.length_replicate]; omega)

/-- Claim C7 — a failed news fetch (raised exception or an empty item
list) never aborts a valid run; it yields the empty string in the `news`
field and leaves every other snapshot field exactly as a successful
fetch would. -/
theorem claim_C7_news_soft_fail (close : List ℚ) (now : String)
    (items : List NewsItem) (h : 210 ≤ close.length) :
    ∃ sErr sOk, run close .err now = .ok sErr ∧
      run close (.ok items) now = .ok sOk ∧
      run close (.ok []) now = .ok sErr ∧
      sErr.metrics.news = "" ∧
      sErr.ticker = sOk.ticker ∧
      sErr.rsi_2_below_30 = sOk.rsi_2_below_30 ∧
      sErr.three_lower_closes = sOk.three_lower_closes ∧
      sErr.above_sma200 = sOk.above_sma200 ∧
      sErr.metrics.last_close = sOk.metrics.last_close ∧
      sErr.metrics.rsi2 = sOk.metrics.rsi2 ∧
      sErr.metrics.sma200 = sOk.metrics.sma200 ∧
      sErr.updated_at = sOk.updated_at := by
  refine ⟨buildSnapshot close .err now, buildSnapshot close (.ok items) now,
    run_ok _ _ _ h, run_ok _ _ _ h, run_ok _ _ _ h, rfl, rfl, rfl, rfl, rfl,
    rfl, rfl, rfl, rfl⟩

theorem claim_C7_witness :
    ∃ sErr sOk, run (List.replicate 210 (100 : ℚ)) .err "2025-01-02T00:00:00Z" = .ok sErr ∧
      run (List.replicate 210 (100 : ℚ))
        (.ok [⟨some ⟨some "headline"⟩⟩]) "2025-01-02T00:00:00Z" = .ok sOk ∧
      run (List.replicate 210 (100 : ℚ)) (.ok []) "2025-01-02T00:00:00Z" = .ok sErr ∧
      sErr.metrics.news = "" ∧
      sErr.ticker = sOk.ticker ∧
      sErr.rsi_2_below_30 = sOk.rsi_2_below_30 ∧
      sErr.three_lower_closes = sOk.three_lower_closes ∧
      sErr.above_sma200 = sOk.above_sma200 ∧
      sErr.metrics.last_close = sOk.metrics.last_close ∧
      sErr.metrics.rsi2 = sOk.metrics.rsi2 ∧
      sErr.metrics.sma200 = sOk.metrics.sma200 ∧
      sErr.updated_at = sOk.updated_at :=
  claim_C7_news_soft_fail (List.replicate 210 (100 : ℚ)) "2025-01-02T00:00:00Z"
    [⟨some ⟨some "headline"⟩⟩] (by simp only [List.length_replicate]; omega)

/-- Claim C6 — counterexample.  The claim says a persistence failure
partway through the write leaves the previously stored snapshot
untouched.  It is false: the write opens the output with mode `"w"`,
which truncates at once, so already after the first operation (`k = 1`,
before any chunk is emitted) a previous file `some ["old"]` has become
`some []`. -/
theorem claim_C6_counterexample :
    ¬ (∀ (old : Option (List String)) (payload : List String) (k : ℕ),
        k < (writeProgram payload).length → fileAfter old payload k = old) := by
  intro hclaim
  have h1 : fileAfter (some ["old"]) ["new"] 1 = some [] := rfl
  have h2 := hclaim (some ["old"]) ["new"] 1 (by decide)
  rw [h1] at h2
  exact absurd h2 (by decide)

lemma fileAfter_emits (p : List String) :
    ∀ (j : ℕ) (acc : List String),
      ((p.map WriteOp.emit).take j).foldl applyOp (some acc) = some (acc ++ p.take j) := by
  induction p with
  | nil => intro j acc; simp
  | cons x p ih =>
    intro j acc
    cases j with
    | zero => simp
    | succ j =>
      simp only [List.map_cons, List.take_succ_cons, List.foldl_cons]
      rw [show applyOp (some acc) (WriteOp.emit x) = some (acc ++ [x]) from rfl, ih]
      simp

/-- Claim C6 — amended.  The snapshot write is not all-or-nothing: it
truncates the previous file the moment it opens, then emits the payload
chunk by chunk, so after `k ≥ 1` of its operations the file holds
exactly the first `k - 1` chunks of the new payload — whatever was
stored before is already gone.  Only a failure before the open
(`k = 0`) leaves the old snapshot untouched, and the completed write
holds the full payload. -/
theorem claim_C6_truncating_write (old : Option (List String))
    (payload : List String) (k : ℕ) :
    (k = 0 → fileAfter old payload k = old) ∧
    (1 ≤ k → fileAfter old payload k = some (payload.take (k - 1))) := by
  constructor
  · intro hk
    subst hk
    rfl
  · intro hk
    obtain ⟨j, rfl⟩ : ∃ j, k = j + 1 := ⟨k - 1, by omega⟩
    rw [fileAfter, writeProgram, List.take_succ_cons, List.foldl_cons,
      show applyOp old .openTrunc = some [] from rfl, fileAfter_emits]
    simp

theorem claim_C6_witness :
    fileAfter (some ["previous snapshot"]) ["chunk a", "chunk b"] 2 =
      some (["chunk a", "chunk b"].take 1) :=
  (claim_C6_truncating_write (some ["previous snapshot"]) ["chunk a", "chunk b"] 2).2
    (by omega)

/-- Claim C8 — the smoothed gain and loss averages of `calc_rsi` are the
pure recursive exponential smoothing of the spec (`ewmSpec`, first value
the first day-over-day gain resp. loss, then
`avg = (1 - 1/P) * prev + (1/P) * obs`), with no simple-average seeding,
masked to undefined until `P` differences have contributed (series
indices below `P`, and indices past the series). -/
theorem claim_C8_ewm_refines_spec (s : List ℚ) (P : ℕ) (hP : 1 ≤ P) :
    (∀ i, i < P ∨ s.length ≤ i →
      avgGainAt s P i = none ∧ avgLossAt s P i = none) ∧
    (∀ i, P ≤ i → i < s.length →
      avgGainAt s P i =
        some (ewmSpec (1 / (P : ℚ)) (fun k => (gains s).getD k 0) (i - 1)) ∧
      avgLossAt s P i =
        some (ewmSpec (1 / (P : ℚ)) (fun k => (losses s).getD k 0) (i - 1))) := by
  constructor
  · intro i hi
    rcases hi with hi | hi
    · exact ⟨avgGainAt_none_low s P i hi, avgLossAt_none_low s P i hi⟩
    · exact ⟨avgGainAt_none_high s P i hi, avgLossAt_none_high s P i hi⟩
  · intro i h1 h2
    exact ⟨avgGainAt_eq s P i hP h1 h2, avgLossAt_eq s P i hP h1 h2⟩

theorem claim_C8_witness :
    avgGainAt [(1 : ℚ), 3, 2, 5] 2 2 =
      some (ewmSpec (1 / ((2 : ℕ) : ℚ))
        (fun k => (gains [(1 : ℚ), 3, 2, 5]).getD k 0) 1) ∧
    avgGainAt [(1 : ℚ), 3, 2, 5] 2 1 = none ∧
    ewmSpec (1 / ((2 : ℕ) : ℚ)) (fun k => (gains [(1 : ℚ), 3, 2, 5]).getD k 0) 0 =
      (gains [(1 : ℚ), 3, 2, 5]).getD 0 0 :=
  ⟨((claim_C8_ewm_refines_spec [(1 : ℚ), 3, 2, 5] 2 (by omega)).2 2 (by omega)
      (by simp)).1,
   ((claim_C8_ewm_refines_spec [(1 : ℚ), 3, 2, 5] 2 (by omega)).1 1
      (Or.inl (by omega))).1,
   rfl⟩

lemma buildSnapshot_last_close (close : List ℚ) (news : NewsFetch) (now : String) :
    (buildSnapshot close news now).metrics.last_close =
      round2 (close.getD (close.length - 1) 0) := rfl

lemma buildSnapshot_rsi2 (close : List ℚ) (news : NewsFetch) (now : String) :
    (buildSnapshot close news now).metrics.rsi2 =
      round2 (((calc_rsi close 2).getD (close.length - 1) none).getD 0) := rfl

lemma buildSnapshot_sma200 (close : List ℚ) (news : NewsFetch) (now : String) :
    (buildSnapshot close news now).metrics.sma200 =
      round2 ((smaAt close (close.length - 1)).getD 0) := rfl

/-- Claim C9 — on a valid series each persisted numeric metric equals
`round2` of the corresponding raw value: one single rounding function
for all three, producing an integer number of hundredths, with ties
between hundredths going to the even hundredth (pinned by the concrete
tie evaluations: 0.125 rounds down to 0.12, 0.135 rounds up to 0.14,
and -0.125 rounds to -0.12). -/
theorem claim_C9_rounding (close : List ℚ) (news : NewsFetch) (now : String)
    (h : 210 ≤ close.length) :
    ∃ s c r m, run close news now = .ok s ∧
      close.getLast? = some c ∧
      (calc_rsi close 2).getLast? = some (some r) ∧
      smaAt close (close.length - 1) = some m ∧
      s.metrics.last_close = round2 c ∧
      s.metrics.rsi2 = round2 r ∧
      s.metrics.sma200 = round2 m ∧
      (∀ q : ℚ, ∃ z : ℤ, round2 q = (z : ℚ) / 100) ∧
      round2 (1 / 8) = 12 / 100 ∧
      round2 (27 / 200) = 14 / 100 ∧
      round2 (-(1 / 8)) = -(12 / 100) := by
  have hl := calc_rsi_last close 2 (by norm_num) (by omega)
  norm_num at hl
  refine ⟨buildSnapshot close news now, close.getD (close.length - 1) 0,
    rsiVal (ewmSpec (1 / (2 : ℚ)) (fun k => (gains close)[k]?.getD 0) (close.length - 1 - 1))
      (ewmSpec (1 / (2 : ℚ)) (fun k => (losses close)[k]?.getD 0) (close.length - 1 - 1)),
    (close.drop (close.length - 200)).sum / 200,
    run_ok _ _ _ h, getLast?_eq_getD close (by omega), ?_, smaAt_last close h,
    rfl, ?_, ?_, fun q => ⟨roundHalfEven (100 * q), rfl⟩, ?_, ?_, ?_⟩
  · rw [List.getLast?_eq_getElem?, calc_rsi_length, hl]
  · rw [buildSnapshot_rsi2, List.getD_eq_getElem?_getD, hl, Option.getD_some,
      Option.getD_some]
  · rw [buildSnapshot_sma200, smaAt_last close h, Option.getD_some]
  · norm_num [round2, roundHalfEven]
  · norm_num [round2, roundHalfEven]
  · norm_num [round2, roundHalfEven]

theorem claim_C9_witness :
    ∃ s c r m,
      run (List.replicate 210 (100 : ℚ)) .err "2025-01-03T00:00:00Z" = .ok s ∧
      (List.replicate 210 (100 : ℚ)).getLast? = some c ∧
      (calc_rsi (List.replicate 210 (100 : ℚ)) 2).getLast? = some (some r) ∧
      smaAt (List.replicate 210 (100 : ℚ))
        ((List.replicate 210 (100 : ℚ)).length - 1) = some m ∧
      s.metrics.last_close = round2 c ∧
      s.metrics.rsi2 = round2 r ∧
      s.metrics.sma200 = round2 m ∧
      (∀ q : ℚ, ∃ z : ℤ, round2 q = (z : ℚ) / 100) ∧
      round2 (1 / 8) = 12 / 100 ∧
      round2 (27 / 200) = 14 / 100 ∧
      round2 (-(1 / 8)) = -(12 / 100) :=
  claim_C9_rounding (List.replicate 210 (100 : ℚ)) .err "2025-01-03T00:00:00Z"
    (by simp only [List.length_replicate]; omega)

/-- Claim C10 — the length-210 guard makes every later access total: the
last three closes exist, the last 200-period rolling mean is defined,
the last period-2 RSI is defined, and the run succeeds, so no undefined
value reaches the snapshot on the success path. -/
theorem claim_C10_guard_totality (close : List ℚ) (news : NewsFetch) (now : String)
    (h : 210 ≤ close.length) :
    (close[close.length - 1]?).isSome ∧
    (close[close.length - 2]?).isSome ∧
    (close[close.length - 3]?).isSome ∧
    (smaAt close (close.length - 1)).isSome ∧
    ((calc_rsi close 2).getD (close.length - 1) none).isSome ∧
    ∃ s, run close news now = .ok s := by
  have hl := calc_rsi_last close 2 (by norm_num) (by omega)
  refine ⟨?_, ?_, ?_, ?_, ?_, buildSnapshot close news now, run_ok _ _ _ h⟩
  · rw [List.getElem?_eq_getElem (by omega)]; rfl
  · rw [List.getElem?_eq_getElem (by omega)]; rfl
  · rw [List.getElem?_eq_getElem (by omega)]; rfl
  · rw [smaAt_last close h]; rfl
  · rw [List.getD_eq_getElem?_getD, hl]; rfl

theorem claim_C10_witness :
    ((List.replicate 210 (100 : ℚ))[(List.replicate 210 (100 : ℚ)).length - 1]?).isSome ∧
    ((List.replicate 210 (100 : ℚ))[(List.replicate 210 (100 : ℚ)).length - 2]?).isSome ∧
    ((List.replicate 210 (100 : ℚ))[(List.replicate 210 (100 : ℚ)).length - 3]?).isSome ∧
    (smaAt (List.replicate 210 (100 : ℚ))
      ((List.replicate 210 (100 : ℚ)).length - 1)).isSome ∧
    ((calc_rsi (List.replicate 210 (100 : ℚ)) 2).getD
      ((List.replicate 210 (100 : ℚ)).length - 1) none).isSome ∧
    ∃ s, run (List.replicate 210 (100 : ℚ)) .err "2025-01-04T00:00:00Z" = .ok s :=
  claim_C10_guard_totality (List.replicate 210 (100 : ℚ)) .err "2025-01-04T00:00:00Z"
    (by simp only [List.length_replicate]; omega)

end SpySignals
